import Mathlib

/-!
Shallow embedding of the payment transaction core of this repository
(controllers/paymentController.js, models/Transaction.js, models/Setting.js).

Machine integers are modelled as Nat with explicit reduction mod 2^32 where
the JavaScript crypto primitives overflow; amounts (JS doubles holding money
values) are modelled as rationals; fallible persistence returns Option.
Randomness (transaction id, note) is injected as parameters, matching the
test-injection requirement of the spec.  The express/mongoose glue (HTTP
parsing, timestamps, the external Order collection updated by the
reconciliation push) is outside the modelled state: each handler is a
function from its request fields and the transaction-store state to a
response value and the new transaction-store state.
-/

/-! ## SHA-256 over byte lists (faithful model of node crypto sha256) -/

def w32 (x : Nat) : Nat := x % 4294967296

def rotr32 (n x : Nat) : Nat := w32 ((x >>> n) ||| (x <<< (32 - n)))

def sigA0 (x : Nat) : Nat := Nat.xor (rotr32 2 x) (Nat.xor (rotr32 13 x) (rotr32 22 x))

def sigA1 (x : Nat) : Nat := Nat.xor (rotr32 6 x) (Nat.xor (rotr32 11 x) (rotr32 25 x))

def sigW0 (x : Nat) : Nat := Nat.xor (rotr32 7 x) (Nat.xor (rotr32 18 x) (x >>> 3))

def sigW1 (x : Nat) : Nat := Nat.xor (rotr32 17 x) (Nat.xor (rotr32 19 x) (x >>> 10))

def chOf (x y z : Nat) : Nat := Nat.xor (Nat.land x y) (Nat.land (Nat.xor x 4294967295) z)

def majOf (x y z : Nat) : Nat := Nat.xor (Nat.land x y) (Nat.xor (Nat.land x z) (Nat.land y z))

def sha256K : List Nat :=
  [1116352408, 1899447441, 3049323471, 3921009573, 961987163,
   1508970993, 2453635748, 2870763221, 3624381080, 310598401,
   607225278, 1426881987, 1925078388, 2162078206, 2614888103,
   3248222580, 3835390401, 4022224774, 264347078, 604807628,
   770255983, 1249150122, 1555081692, 1996064986, 2554220882,
   2821834349, 2952996808, 3210313671, 3336571891, 3584528711,
   113926993, 338241895, 666307205, 773529912, 1294757372,
   1396182291, 1695183700, 1986661051, 2177026350, 2456956037,
   2730485921, 2820302411, 3259730800, 3345764771, 3516065817,
   3600352804, 4094571909, 275423344, 430227734, 506948616,
   659060556, 883997877, 958139571, 1322822218, 1537002063,
   1747873779, 1955562222, 2024104815, 2227730452, 2361852424,
   2428436474, 2756734187, 3204031479, 3329325298]

def toBytesBE : Nat → Nat → List Nat
  | 0, _ => []
  | n + 1, x => toBytesBE n (x >>> 8) ++ [x &&& 255]

def bytesToWords : List Nat → List Nat
  | a :: b :: c :: d :: rest =>
      ((((a <<< 8) ||| b) <<< 8 ||| c) <<< 8 ||| d) :: bytesToWords rest
  | _ => []

def padMessage (msg : List Nat) : List Nat :=
  msg ++ [0x80] ++ List.replicate ((119 - msg.length % 64) % 64) 0
      ++ toBytesBE 8 (msg.length * 8)

-- fuel-based structural recursion (one unit of fuel per 64-byte block suffices)
def toBlocksFuel : Nat → List Nat → List (List Nat)
  | 0, _ => []
  | _, [] => []
  | fuel + 1, b :: rest =>
      bytesToWords ((b :: rest).take 64) :: toBlocksFuel fuel (rest.drop 63)

def toBlocks (bytes : List Nat) : List (List Nat) := toBlocksFuel bytes.length bytes

-- message schedule: generate the remaining 48 words from a sliding window of 16
def schedExt : Nat → List Nat → List Nat
  | 0, _ => []
  | t + 1, w0 :: w1 :: w2 :: w3 :: w4 :: w5 :: w6 :: w7 :: w8 :: w9 :: w10 ::
           w11 :: w12 :: w13 :: w14 :: w15 :: _ =>
      let nw := w32 (sigW1 w14 + w9 + sigW0 w1 + w0)
      nw :: schedExt t [w1, w2, w3, w4, w5, w6, w7, w8, w9, w10, w11, w12,
                        w13, w14, w15, nw]
  | _ + 1, _ => []

abbrev Sha256State := Nat × Nat × Nat × Nat × Nat × Nat × Nat × Nat

def sha256Init : Sha256State :=
  (1779033703, 3144134277, 1013904242, 2773480762, 1359893119, 2600822924, 528734635, 1541459225)

def compressWords : List Nat → List Nat → Sha256State → Sha256State
  | w :: ws, k :: ks, (a, b, c, d, e, f, g, h) =>
      let t1 := w32 (h + sigA1 e + chOf e f g + k + w)
      let t2 := w32 (sigA0 a + majOf a b c)
      compressWords ws ks (w32 (t1 + t2), a, b, c, w32 (d + t1), e, f, g)
  | _, _, st => st

def compressBlock (st : Sha256State) (block : List Nat) : Sha256State :=
  let ws := block ++ schedExt 48 block
  match st, compressWords ws sha256K st with
  | (h0, h1, h2, h3, h4, h5, h6, h7), (a, b, c, d, e, f, g, h) =>
      (w32 (h0 + a), w32 (h1 + b), w32 (h2 + c), w32 (h3 + d),
       w32 (h4 + e), w32 (h5 + f), w32 (h6 + g), w32 (h7 + h))

def sha256Bytes (msg : List Nat) : List Nat :=
  match ((padMessage msg |> toBlocks).foldl compressBlock sha256Init) with
  | (h0, h1, h2, h3, h4, h5, h6, h7) =>
      toBytesBE 4 h0 ++ toBytesBE 4 h1 ++ toBytesBE 4 h2 ++ toBytesBE 4 h3 ++
      toBytesBE 4 h4 ++ toBytesBE 4 h5 ++ toBytesBE 4 h6 ++ toBytesBE 4 h7

/-! ## HMAC-SHA256 with hex digest (node createHmac(..).digest(hex)) -/

def hexDigitChar (n : Nat) : Char :=
  if n < 10 then Char.ofNat (48 + n) else Char.ofNat (87 + n)

def byteToHex (b : Nat) : List Char := [hexDigitChar (b >>> 4), hexDigitChar (b &&& 15)]

def bytesToHex (bs : List Nat) : String := String.mk ((bs.map byteToHex).flatten)

def hmacSha256 (key msg : List Nat) : List Nat :=
  let k0 := if key.length > 64 then sha256Bytes key else key
  let kp := k0 ++ List.replicate (64 - k0.length) 0
  let inner := sha256Bytes (kp.map (fun b => b ^^^ 0x36) ++ msg)
  sha256Bytes (kp.map (fun b => b ^^^ 0x5c) ++ inner)

-- UTF-8 bytes of a string (node hmac update and Buffer.from default encoding)
def utf8Bytes (n : Nat) : List Nat :=
  if n < 0x80 then [n]
  else if n < 0x800 then [0xc0 ||| (n >>> 6), 0x80 ||| (n &&& 63)]
  else if n < 0x10000 then
    [0xe0 ||| (n >>> 12), 0x80 ||| ((n >>> 6) &&& 63), 0x80 ||| (n &&& 63)]
  else
    [0xf0 ||| (n >>> 18), 0x80 ||| ((n >>> 12) &&& 63),
     0x80 ||| ((n >>> 6) &&& 63), 0x80 ||| (n &&& 63)]

def strBytes (s : String) : List Nat := (s.data.map (fun c => utf8Bytes c.toNat)).flatten

def hmacHex (key msg : String) : String :=
  bytesToHex (hmacSha256 (strBytes key) (strBytes msg))

/-! ## Base64 (Buffer.from(str).toString(base64)) -/

def b64Alphabet : List Char :=
  "ABCDEFGHIJKLMNOPQRSTUVWXYZabcdefghijklmnopqrstuvwxyz0123456789+/".data

def b64Char (n : Nat) : Char := (b64Alphabet.drop n).headD (Char.ofNat 65)

def base64Chars : List Nat → List Char
  | [] => []
  | [a] => [b64Char (a >>> 2), b64Char ((a &&& 3) <<< 4), Char.ofNat 61, Char.ofNat 61]
  | [a, b] => [b64Char (a >>> 2), b64Char (((a &&& 3) <<< 4) ||| (b >>> 4)),
               b64Char ((b &&& 15) <<< 2), Char.ofNat 61]
  | a :: b :: c :: rest =>
      b64Char (a >>> 2) :: b64Char (((a &&& 3) <<< 4) ||| (b >>> 4)) ::
      b64Char (((b &&& 15) <<< 2) ||| (c >>> 6)) :: b64Char (c &&& 63) ::
      base64Chars rest

def base64Encode (bs : List Nat) : String := String.mk (base64Chars bs)

/-! ## JavaScript string and number helpers -/

-- JS truthiness of an optional string request field (undefined and "" are falsy)
def jsTruthy : Option String → Bool
  | none => false
  | some s => s != ""

-- JS truthiness of an optional numeric request field (undefined and 0 are falsy)
def jsTruthyNum : Option ℚ → Bool
  | none => false
  | some q => q != 0

-- decimal digits of the fractional part rem/den, most significant first
def fracDigits : Nat → Nat → Nat → String
  | 0, _, _ => ""
  | _ + 1, 0, _ => ""
  | fuel + 1, rem, den =>
      toString (rem * 10 / den) ++ fracDigits fuel (rem * 10 % den) den

-- JS Number to String conversion, exact for numbers with a finite decimal
-- expansion (the only amounts a JS double renders in plain decimal form)
def jsNumToString (q : ℚ) : String :=
  if q.den = 1 then toString q.num
  else
    (if q.num < 0 then "-" else "") ++ toString (q.num.natAbs / q.den) ++ "."
      ++ fracDigits 30 (q.num.natAbs % q.den) q.den

-- template-literal interpolation of a possibly-undefined numeric field
def jsTemplateNum : Option ℚ → String
  | none => "undefined"
  | some q => jsNumToString q

def hexByteUpper (b : Nat) : List Char :=
  ['%', (if b >>> 4 < 10 then Char.ofNat (48 + (b >>> 4)) else Char.ofNat (55 + (b >>> 4))),
   (if (b &&& 15) < 10 then Char.ofNat (48 + (b &&& 15)) else Char.ofNat (55 + (b &&& 15)))]

-- characters encodeURIComponent leaves unescaped
def uriUnreserved (c : Char) : Bool :=
  c.isAlphanum || c == '-' || c == '_' || c == '.' || c == '!' || c == '~' ||
  c == '*' || c == Char.ofNat 39 || c == '(' || c == ')'

def encodeURIComponent (s : String) : String :=
  String.mk ((s.data.map (fun c =>
    if uriUnreserved c then [c] else (utf8Bytes c.toNat).map hexByteUpper |>.flatten)).flatten)

-- characters the URLSearchParams serializer leaves unescaped
def formUnreserved (c : Char) : Bool :=
  c.isAlphanum || c == '*' || c == '-' || c == '.' || c == '_'

def formEncode (s : String) : String :=
  String.mk ((s.data.map (fun c =>
    if formUnreserved c then [c]
    else if c == ' ' then ['+']
    else (utf8Bytes c.toNat).map hexByteUpper |>.flatten)).flatten)

-- URLSearchParams(obj).toString(): ampersand-joined key=value in insertion order
def urlSearchParams (pairs : List (String × String)) : String :=
  String.intercalate "&" (pairs.map (fun p => formEncode p.1 ++ "=" ++ formEncode p.2))

-- JSON.stringify escaping inside string values
def jsonEscapeChar (c : Char) : List Char :=
  if c == '"' then ['\\', '"']
  else if c == '\\' then ['\\', '\\']
  else if c.toNat == 8 then ['\\', 'b']
  else if c.toNat == 9 then ['\\', 't']
  else if c.toNat == 10 then ['\\', 'n']
  else if c.toNat == 12 then ['\\', 'f']
  else if c.toNat == 13 then ['\\', 'r']
  else if c.toNat < 32 then
    '\\' :: 'u' :: '0' :: '0' :: [hexDigitChar (c.toNat >>> 4), hexDigitChar (c.toNat &&& 15)]
  else [c]

def jsonEscape (s : String) : String := String.mk ((s.data.map jsonEscapeChar).flatten)

-- String.prototype.toLowerCase, for the ASCII payment-type tokens
def jsToLower (s : String) : String :=
  String.mk (s.data.map (fun c =>
    if 65 ≤ c.toNat ∧ c.toNat ≤ 90 then Char.ofNat (c.toNat + 32) else c))

-- String.prototype.trim: strip whitespace from both ends
def jsTrim (s : String) : String :=
  String.mk (((s.data.dropWhile Char.isWhitespace).reverse.dropWhile
    Char.isWhitespace).reverse)

-- JS Math.floor on a rational (floor division of numerator by denominator)
def jsMathFloor (q : ℚ) : Int := Int.fdiv q.num q.den

/-! ## Data model (models/Setting.js and models/Transaction.js) -/

structure Settings where
  merchantUPI : String
  merchantSecret : String
deriving DecidableEq

structure Transaction where
  tid : String
  userId : Option String
  orderId : Option String
  amount : ℚ
  payType : String
  upi : String
  status : String
  payload : String
  signature : String
  redirectUrl : String
  note : String
  upiRef : Option String
  expires : Nat          -- Date stored as milliseconds since epoch
  completedAt : Option Nat
deriving DecidableEq

def statusEnum : List String := ["pending", "success", "failed", "expired"]

def payTypeEnum : List String := ["phonepe", "paytm"]

-- mongoose document validation run by save(): required fields, amount min 0,
-- and the two enum paths of transactionSchema
def validTransaction (t : Transaction) : Bool :=
  t.tid != "" && decide (0 ≤ t.amount) && payTypeEnum.contains t.payType &&
  t.upi != "" && statusEnum.contains t.status

-- Transaction.findOne({ tid })
def findOne (db : List Transaction) (tid : String) : Option Transaction :=
  db.find? (fun t => t.tid == tid)

-- document.save() on a fetched document: validate, then overwrite the stored
-- record with the same tid (none models a thrown ValidationError)
def saveDoc (db : List Transaction) (t : Transaction) : Option (List Transaction) :=
  if validTransaction t then
    some (db.map (fun u => if u.tid == t.tid then t else u))
  else none

-- new Transaction(..).save(): validate and respect the unique index on tid
def insertDoc (db : List Transaction) (t : Transaction) : Option (List Transaction) :=
  if validTransaction t && (findOne db t.tid).isNone then some (db ++ [t]) else none

-- const MERCHANT_SECRET = process.env.MERCHANT_SECRET || 'my_super_secret_key'
def MERCHANT_SECRET (env : Option String) : String := env.getD "my_super_secret_key"

-- const createSignature = (payload) => crypto.createHmac('sha256', MERCHANT_SECRET)...
def createSignature (env : Option String) (payload : String) : String :=
  hmacHex (MERCHANT_SECRET env) payload

/-! ## Payload builders (the two provider branches of createPayment) -/

-- JSON.stringify of the PhonePe payload object literal, keys in insertion order
def phonepePayloadJson (vpa note : String) (minor : Int) : String :=
  "\x7b\"contact\":\x7b\"cbsName\":\"\",\"nickName\":\"\",\"vpa\":\"" ++ jsonEscape vpa ++
  "\",\"type\":\"VPA\"\x7d,\"p2pPaymentCheckoutParams\":\x7b\"note\":\"" ++ jsonEscape note ++
  "\",\"isByDefaultKnownContact\":true,\"initialAmount\":" ++ toString minor ++
  ",\"currency\":\"INR\",\"checkoutType\":\"DEFAULT\",\"transactionContext\":\"p2p\"\x7d\x7d"

-- JSON.stringify of the Paytm wrapper object literal
def paytmPayloadJson (redirect tid : String) (exp : Nat) : String :=
  "\x7b\"redirect\":\"" ++ jsonEscape redirect ++ "\",\"tid\":\"" ++ jsonEscape tid ++
  "\",\"exp\":" ++ toString exp ++ "\x7d"

-- the Paytm URLSearchParams query (object-literal insertion order)
def paytmQuery (upi : String) (amount : ℚ) (note : String) : String :=
  urlSearchParams
    [("pa", upi), ("am", jsNumToString amount), ("tn", note), ("pn", upi),
     ("mc", ""), ("cu", "INR"), ("url", ""), ("mode", ""), ("purpose", ""),
     ("orgid", ""), ("sign", ""), ("featuretype", "money_transfer")]

-- substring test backing the User-Agent regex checks
def subSearch (needle : List Char) : List Char → Bool
  | [] => needle.isEmpty
  | c :: rest => needle.isPrefixOf (c :: rest) || subSearch needle rest

def containsSub (hay needle : String) : Bool := subSearch needle.data hay.data

def isIOSUA (ua : String) : Bool :=
  containsSub ua "iPad" || containsSub ua "iPhone" || containsSub ua "iPod"

def isAndroidUA (ua : String) : Bool := containsSub ua "Android"

/-! ## Handlers (controllers/paymentController.js) -/

structure CreateBundle where
  redirect_url : String
  ios_url : String
  android_url : String
  payload : String
  sig : String
  expires : Nat          -- unix seconds
  tid : String
  amount : String
  device : String
deriving DecidableEq

inductive CreateResp where
  | invalidPayload                    -- 400 Invalid payload
  | unsupportedType                   -- 400 Unsupported payment type
  | ok (b : CreateBundle)             -- 200 with the payload bundle
  | serverError                       -- 500 Failed to create payment (catch)
deriving DecidableEq

-- the awaited transaction.save() of createPayment together with the 200/500
-- response built from its outcome
def persistNew (db : List Transaction) (t : Transaction) (resp : CreateBundle) :
    CreateResp × List Transaction :=
  match insertDoc db t with
  | some newDb => (.ok resp, newDb)
  | none => (.serverError, db)

/--
createPayment.  Randomness is injected: tid stands for the
generateTransactionId() draw and note for the generateNote() draw.  now is
Date.now() in milliseconds; env is process.env.MERCHANT_SECRET.
-/
def createPayment (env : Option String) (now : Nat) (settings : Settings)
    (db : List Transaction) (amount : Option ℚ) (payType : Option String)
    (orderId userId : Option String) (userAgent : String) (tid note : String) :
    CreateResp × List Transaction :=
  if !(jsTruthyNum amount && jsTruthy payType) then (.invalidPayload, db)
  else
    let paymentAmount := amount.getD 0
    let paymentType := jsTrim (jsToLower (payType.getD ""))
    if !payTypeEnum.contains paymentType then (.unsupportedType, db)
    else
      let MERCHANT_UPI := settings.merchantUPI
      let expires := now / 1000 + 600
      let isIOS := isIOSUA userAgent
      let isAndroid := isAndroidUA userAgent
      if paymentType == "phonepe" then
        let payloadStr := phonepePayloadJson MERCHANT_UPI note (jsMathFloor (paymentAmount * 100))
        let payloadB64 := base64Encode (strBytes payloadStr)
        let signature := createSignature env payloadB64
        let androidUrl := "phonepe://native?data=" ++ encodeURIComponent payloadB64 ++ "&id=p2ppayment"
        let iosUrl := "phonepe://pay?pa=" ++ encodeURIComponent MERCHANT_UPI ++
          "&pn=Merchant&am=" ++ jsNumToString paymentAmount ++ "&tn=" ++
          encodeURIComponent note ++ "&cu=INR"
        let redirectUrl := if isIOS then iosUrl else androidUrl
        let t : Transaction :=
          { tid := tid,
            userId := if jsTruthy userId then userId else none,
            orderId := if jsTruthy orderId then orderId else none,
            amount := paymentAmount, payType := paymentType, upi := MERCHANT_UPI,
            status := "pending", payload := payloadB64, signature := signature,
            redirectUrl := redirectUrl, note := note, upiRef := none,
            expires := expires * 1000, completedAt := none }
        persistNew db t
          { redirect_url := redirectUrl, ios_url := iosUrl,
            android_url := androidUrl, payload := payloadB64,
            sig := signature, expires := expires, tid := tid,
            amount := jsNumToString paymentAmount,
            device := if isIOS then "iOS" else if isAndroid then "Android" else "Desktop" }
      else
        let q := paytmQuery MERCHANT_UPI paymentAmount note
        let redirectUrl := "paytmmp://cash_wallet?" ++ q
        let iosUrl := "paytm://pay?" ++ q
        let payloadStr := paytmPayloadJson redirectUrl tid expires
        let payloadB64 := base64Encode (strBytes payloadStr)
        let signature := createSignature env payloadB64
        let t : Transaction :=
          { tid := tid,
            userId := if jsTruthy userId then userId else none,
            orderId := if jsTruthy orderId then orderId else none,
            amount := paymentAmount, payType := paymentType, upi := MERCHANT_UPI,
            status := "pending", payload := payloadB64, signature := signature,
            redirectUrl := redirectUrl, note := note, upiRef := none,
            expires := expires * 1000, completedAt := none }
        persistNew db t
          { redirect_url := redirectUrl, ios_url := iosUrl,
            android_url := redirectUrl, payload := payloadB64,
            sig := signature, expires := expires, tid := tid,
            amount := jsNumToString paymentAmount,
            device := if isIOS then "ios" else if isAndroid then "android" else "desktop" }

inductive StatusResp where
  | missingTid                        -- 400 Transaction ID is required
  | notFound                          -- 404
  | ok (tid status : String) (amount : ℚ) (payType upi : String)
       (completedAt : Option Nat)     -- 200
  | serverError                       -- 500 (catch)
deriving DecidableEq

/-- checkPaymentStatus: lazy expiry on read, then report the record. -/
def checkPaymentStatus (now : Nat) (db : List Transaction) (tid : Option String) :
    StatusResp × List Transaction :=
  if !jsTruthy tid then (.missingTid, db)
  else
    match findOne db (tid.getD "") with
    | none => (.notFound, db)
    | some tx =>
        if tx.status == "pending" && decide (now > tx.expires) then
          let tx2 := { tx with status := "expired" }
          match saveDoc db tx2 with
          | some newDb =>
              (.ok tx2.tid tx2.status tx2.amount tx2.payType tx2.upi tx2.completedAt, newDb)
          | none => (.serverError, db)
        else (.ok tx.tid tx.status tx.amount tx.payType tx.upi tx.completedAt, db)

inductive VerifyResp where
  | missingFields                     -- 400 Transaction ID and status are required
  | notFound                          -- 404 Transaction not found
  | invalidSignature                  -- 400 Invalid signature
  | alreadyResolved (st : String)     -- 400 Transaction already <st>
  | ok (tid st : String) (amount : ℚ) -- 200 success body
  | serverError                       -- 500 Failed to verify payment (catch)
deriving DecidableEq

-- HTTP status code attached to each verify response body
def verifyHttpStatus : VerifyResp → Nat
  | .missingFields => 400
  | .notFound => 404
  | .invalidSignature => 400
  | .alreadyResolved _ => 400
  | .ok _ _ _ => 200
  | .serverError => 500

-- whether the response body is the error-shaped JSON rather than the success body
def verifyIsErrorBody : VerifyResp → Bool
  | .ok _ _ _ => false
  | _ => true

-- decision taken after the awaited findOne, before the awaited save
inductive VerifyDecision where
  | reject (r : VerifyResp)
  | commit (tx2 : Transaction)
deriving DecidableEq

/-- The in-memory part of verifyPayment between its two persistence awaits. -/
def verifyDecide (env : Option String) (now : Nat) (tx : Transaction)
    (status : String) (signature : Option String) : VerifyDecision :=
  if jsTruthy signature && (signature.getD "" != createSignature env tx.payload) then
    .reject .invalidSignature
  else if tx.status != "pending" then .reject (.alreadyResolved tx.status)
  else .commit { tx with status := status, completedAt := some now }

/-- The save step of verifyPayment (second await) and the response built from it. -/
def verifyCommit (db : List Transaction) (tx2 : Transaction) :
    VerifyResp × List Transaction :=
  match saveDoc db tx2 with
  | some newDb => (.ok tx2.tid tx2.status tx2.amount, newDb)
  | none => (.serverError, db)

/-- verifyPayment: findOne, an in-memory decision, then a save. -/
def verifyPayment (env : Option String) (now : Nat) (db : List Transaction)
    (tid status signature : Option String) : VerifyResp × List Transaction :=
  if !(jsTruthy tid && jsTruthy status) then (.missingFields, db)
  else
    match findOne db (tid.getD "") with
    | none => (.notFound, db)
    | some tx =>
        match verifyDecide env now tx (status.getD "") signature with
        | .reject r => (r, db)
        | .commit tx2 => verifyCommit db tx2

inductive WebhookResp where
  | invalidData                       -- 400 Invalid webhook data
  | notFound                          -- 404 Transaction not found
  | invalidSignature                  -- 400 Invalid signature
  | okProcessed                       -- 200 Webhook processed successfully
  | serverError                       -- 500 Webhook processing failed (catch)
deriving DecidableEq

def webhookHttpStatus : WebhookResp → Nat
  | .invalidData => 400
  | .notFound => 404
  | .invalidSignature => 400
  | .okProcessed => 200
  | .serverError => 500

-- the awaited transaction.save() of paymentWebhook (second suspension point)
def webhookCommit (db : List Transaction) (tx2 : Transaction) :
    WebhookResp × List Transaction :=
  match saveDoc db tx2 with
  | some newDb => (.okProcessed, newDb)
  | none => (.serverError, db)

/-- paymentWebhook: the webhook signature is the HMAC of tid ++ status ++ amount. -/
def paymentWebhook (env : Option String) (now : Nat) (db : List Transaction)
    (tid status : Option String) (amount : Option ℚ)
    (upiRef signature : Option String) : WebhookResp × List Transaction :=
  if !(jsTruthy tid && jsTruthy status) then (.invalidData, db)
  else
    match findOne db (tid.getD "") with
    | none => (.notFound, db)
    | some tx =>
        if jsTruthy signature &&
            (signature.getD "" !=
              hmacHex (MERCHANT_SECRET env)
                (tid.getD "" ++ status.getD "" ++ jsTemplateNum amount)) then
          (.invalidSignature, db)
        else if tx.status == "pending" then
          webhookCommit db
            { tx with
              status := status.getD ""
              completedAt := some now
              upiRef := if jsTruthy upiRef then upiRef else tx.upiRef }
        else (.okProcessed, db)

inductive SimResp where
  | missingFields                     -- 400 TID and status required
  | notFound                          -- 404 Transaction not found
  | alreadyResolved (st : String)     -- 400 Transaction already <st>
  | ok (tid st : String) (amount : ℚ) -- 200 success body
  | serverError                       -- 500 Simulation failed (catch)
deriving DecidableEq

def simHttpStatus : SimResp → Nat
  | .missingFields => 400
  | .notFound => 404
  | .alreadyResolved _ => 400
  | .ok _ _ _ => 200
  | .serverError => 500

-- the awaited transaction.save() of simulatePayment plus its 200/500 response
def simCommit (db : List Transaction) (tx2 : Transaction) (tid st : String)
    (amt : ℚ) : SimResp × List Transaction :=
  match saveDoc db tx2 with
  | some newDb => (.ok tid st amt, newDb)
  | none => (.serverError, db)

/--
simulatePayment.  The handler destructures only tid and status from the
request body; the signature argument models a signature field a caller may
send, which the handler never reads.
-/
def simulatePayment (now : Nat) (db : List Transaction)
    (tid status : Option String) (_signature : Option String) :
    SimResp × List Transaction :=
  if !(jsTruthy tid && jsTruthy status) then (.missingFields, db)
  else
    match findOne db (tid.getD "") with
    | none => (.notFound, db)
    | some tx =>
        if tx.status != "pending" then (.alreadyResolved tx.status, db)
        else
          simCommit db
            { tx with
              status := status.getD ""
              completedAt := some now
              upiRef := some ("SIM" ++ toString now) }
            (tid.getD "") (status.getD "") tx.amount

/-! ## Spec-side definitions for refinement comparisons -/

/--
Modelled from the spec: the amount in minor units described in §4.1,
"amount × 100, rounded to nearest integer", in the half-up convention of JS
Math.round (floor of x + 1/2); proved equal to Mathlib round below.
-/
def specMinorUnits (amount : ℚ) : Int := jsMathFloor (amount * 100 + 1/2)

-- the completedAt/status invariant claimed in §3 of the spec
def completedAtInv (t : Transaction) : Prop :=
  t.completedAt ≠ none ↔ t.status ≠ "pending"

instance (t : Transaction) : Decidable (completedAtInv t) := by
  unfold completedAtInv; infer_instance

/-! ## Concrete instances used by counterexamples and witnesses -/

-- concrete pending transaction used to instantiate the C10 theorem
def c10tx : Transaction :=
  { tid := "t10", userId := none, orderId := none, amount := 10,
    payType := "phonepe", upi := "m@sbi", status := "pending",
    payload := "PAYLOAD", signature := "", redirectUrl := "", note := "n",
    upiRef := none, expires := 1000, completedAt := none }

-- concrete pending transaction used by the C2 counterexample
def c2tx : Transaction :=
  { tid := "t2", userId := none, orderId := none, amount := 10,
    payType := "phonepe", upi := "m@sbi", status := "pending",
    payload := "PAY", signature := "", redirectUrl := "", note := "n",
    upiRef := none, expires := 1000, completedAt := none }

-- concrete already-expired transaction used by the C4 counterexample
def c4tx : Transaction :=
  { tid := "t4", userId := none, orderId := none, amount := 10,
    payType := "phonepe", upi := "m@sbi", status := "expired",
    payload := "PAY", signature := "", redirectUrl := "", note := "n",
    upiRef := none, expires := 1000, completedAt := some 900 }

-- concrete pending transaction with a stored payload, for the C3 counterexample
def c3tx : Transaction :=
  { tid := "t3", userId := none, orderId := none, amount := 100,
    payType := "phonepe", upi := "m@sbi", status := "pending",
    payload := "AAAA", signature := "", redirectUrl := "", note := "n",
    upiRef := none, expires := 1000, completedAt := none }

-- concrete data for the C3 witness: a signature that matches neither scheme
def c3sig : String := "deadbeef"

-- concrete pending transaction used by the C6 race counterexample
def c6tx : Transaction :=
  { tid := "t6", userId := none, orderId := none, amount := 10,
    payType := "phonepe", upi := "m@sbi", status := "pending",
    payload := "PAY", signature := "", redirectUrl := "", note := "n",
    upiRef := none, expires := 1000, completedAt := none }

-- projections used to state counterexamples on createPayment results
def createRespPayload : CreateResp → Option String
  | .ok b => some b.payload
  | _ => none

def createRespSig : CreateResp → Option String
  | .ok b => some b.sig
  | _ => none

-- the creation request of the C7 counterexample: the configuration record
-- holds a rotated merchantSecret different from the process env default
def c7result : CreateResp × List Transaction :=
  createPayment none 1700000000123
    { merchantUPI := "m@sbi", merchantSecret := "rotated_secret" }
    [] (some 250) (some "phonepe") none none "" "cw7" "s123"

def c7payload : String := base64Encode (strBytes (phonepePayloadJson "m@sbi" "s123" 25000))

-- the creation request of the C9 counterexample (amount 3/16 = 0.1875, an
-- exactly representable double, so the rational model matches the JS float)
def c9result : CreateResp × List Transaction :=
  createPayment none 1700000000123 { merchantUPI := "m@sbi", merchantSecret := "k" }
    [] (some ((3 : ℚ)/16)) (some "phonepe") none none "" "cw9" "s123"

-- concrete pending transaction past its expiry, for the C1 counterexample
def c1tx : Transaction :=
  { tid := "t1", userId := none, orderId := none, amount := 10,
    payType := "phonepe", upi := "m@sbi", status := "pending",
    payload := "PAY", signature := "", redirectUrl := "", note := "n",
    upiRef := none, expires := 1000, completedAt := none }

/-! ## General lemmas about the store -/

lemma findOne_tid {db : List Transaction} {tid : String} {tx : Transaction}
    (h : findOne db tid = some tx) : tx.tid = tid := by
  have := List.find?_some h
  exact beq_iff_eq.mp this

lemma findOne_mem {db : List Transaction} {tid : String} {tx : Transaction}
    (h : findOne db tid = some tx) : tx ∈ db :=
  List.mem_of_find?_eq_some h

lemma findOne_replace {db : List Transaction} {tid : String} {tx : Transaction}
    (t2 : Transaction) (h : findOne db tid = some tx) (h1 : t2.tid = tx.tid) :
    findOne (db.map (fun u => if u.tid == tx.tid then t2 else u)) tid = some t2 := by
  have htid : tx.tid = tid := findOne_tid h
  subst htid
  induction db with
  | nil => simp [findOne] at h
  | cons u rest ih =>
      unfold findOne at h ⊢
      rw [List.find?_cons] at h
      rw [List.map_cons, List.find?_cons]
      rcases hu : (u.tid == tx.tid) with _ | _
      · rw [hu] at h
        simp only [hu, Bool.false_eq_true, if_false]
        exact ih h
      · simp only [hu, if_true]
        have h2b : (t2.tid == tx.tid) = true := beq_iff_eq.mpr h1
        rw [h2b]

lemma mem_replace {db : List Transaction} {t t2 : Transaction} {s : String}
    (h : t ∈ db.map (fun u => if u.tid == s then t2 else u)) :
    t = t2 ∨ t ∈ db := by
  rcases List.mem_map.mp h with ⟨u, hu, he⟩
  by_cases hc : (u.tid == s) = true
  · rw [if_pos hc] at he; exact Or.inl he.symm
  · rw [if_neg hc] at he; exact Or.inr (he ▸ hu)

/-! ## Theorems for the claims -/

/--
C10.  With no signature supplied, Resolve performs no signature verification:
a verify call carrying only the transaction id and a reported terminal status
applies the transition on a pending transaction, and simulatePayment is
insensitive to any signature a caller sends.  Possession of the id suffices.
-/
theorem c10_resolve_without_signature
    (env : Option String) (now : Nat) (db : List Transaction) (tid : String)
    (tx : Transaction) (r : String)
    (hfind : findOne db tid = some tx) (hst : tx.status = "pending")
    (hvalid : validTransaction tx = true) (htid : tid ≠ "")
    (hr : r = "success" ∨ r = "failed") :
    verifyPayment env now db (some tid) (some r) none =
      (.ok tx.tid r tx.amount,
        db.map (fun u =>
          if u.tid == ({ tx with status := r, completedAt := some now } : Transaction).tid
          then { tx with status := r, completedAt := some now } else u))
    ∧ ∀ s, simulatePayment now db (some tid) (some r) s =
        simulatePayment now db (some tid) (some r) none := by
  refine ⟨?_, fun s => rfl⟩
  have hrne : (r != "") = true := by
    rcases hr with h | h <;> subst h <;> decide
  have hcont : statusEnum.contains r = true := by
    rcases hr with h | h <;> subst h <;> decide
  have htidb : (tid != "") = true := bne_iff_ne.mpr htid
  have hvalid2 : validTransaction { tx with status := r, completedAt := some now } = true := by
    simp only [validTransaction] at hvalid ⊢
    simp only [Bool.and_eq_true] at hvalid ⊢
    exact ⟨⟨⟨⟨hvalid.1.1.1.1, hvalid.1.1.1.2⟩, hvalid.1.1.2⟩, hvalid.1.2⟩, hcont⟩
  simp only [verifyPayment, jsTruthy, htidb, hrne, Bool.and_self, Bool.not_true,
    Bool.false_eq_true, if_false, Option.getD_some, hfind, verifyDecide,
    Bool.false_and, Bool.and_false, hst, verifyCommit, saveDoc, hvalid2, if_pos, if_true]
  simp [hst, hvalid2]

/-- Witness for C10 at a concrete pending transaction. -/
theorem c10_resolve_without_signature_witness :
    findOne [c10tx] "t10" = some c10tx ∧ c10tx.status = "pending" ∧
    validTransaction c10tx = true ∧ "t10" ≠ "" ∧
    ("success" = "success" ∨ ("success" : String) = "failed") ∧
    (verifyPayment none 77 [c10tx] (some "t10") (some "success") none =
      (.ok c10tx.tid "success" c10tx.amount,
        [c10tx].map (fun u =>
          if u.tid == ({ c10tx with status := "success", completedAt := some 77 } : Transaction).tid
          then { c10tx with status := "success", completedAt := some 77 } else u))
    ∧ ∀ s, simulatePayment 77 [c10tx] (some "t10") (some "success") s =
        simulatePayment 77 [c10tx] (some "t10") (some "success") none) :=
  ⟨by decide, by decide, by decide, by decide, Or.inl rfl,
   c10_resolve_without_signature none 77 [c10tx] "t10" c10tx "success"
     (by decide) (by decide) (by decide) (by decide) (Or.inl rfl)⟩

/--
C5.  For any amount above zero and a supported provider, createPayment
persists a pending record expiring 600 seconds after the creation second and
returns a bundle whose signature is the HMAC of the returned payload under
the process secret, hence verifies against the stored payload.
-/
theorem c5_create_pending_expiry_signed
    (env : Option String) (now : Nat) (settings : Settings) (db : List Transaction)
    (a : ℚ) (pt : String) (orderId userId : Option String) (ua tid note : String)
    (ha : 0 < a) (hpt : pt = "phonepe" ∨ pt = "paytm") (htid : tid ≠ "")
    (hupi : settings.merchantUPI ≠ "") (hfresh : findOne db tid = none) :
    ∃ b t, createPayment env now settings db (some a) (some pt) orderId userId ua tid note
        = (.ok b, db ++ [t])
      ∧ t.status = "pending"
      ∧ t.expires = (now / 1000 + 600) * 1000
      ∧ b.expires = now / 1000 + 600
      ∧ t.payload = b.payload ∧ t.signature = b.sig
      ∧ b.sig = createSignature env b.payload := by
  have haT : jsTruthyNum (some a) = true := by
    simp only [jsTruthyNum]; exact bne_iff_ne.mpr ha.ne'
  have hage : decide (0 ≤ a) = true := decide_eq_true ha.le
  have htidb : (tid != "") = true := bne_iff_ne.mpr htid
  have hupib : (settings.merchantUPI != "") = true := bne_iff_ne.mpr hupi
  have hnone : (findOne db tid).isNone = true := by rw [hfresh]; rfl
  have hlow1 : jsTrim (jsToLower "phonepe") = "phonepe" := by decide
  have hlow2 : jsTrim (jsToLower "paytm") = "paytm" := by decide
  have hc1 : payTypeEnum.contains "phonepe" = true := by decide
  have hc2 : payTypeEnum.contains "paytm" = true := by decide
  have hsp : statusEnum.contains "pending" = true := by decide
  rcases hpt with h | h <;> subst h
  · simp only [createPayment, persistNew, haT, jsTruthy, Option.getD_some, hlow1, hc1, hsp,
      insertDoc, validTransaction, hage, htidb, hupib, hnone, beq_self_eq_true,
      bne_self_eq_false, Bool.and_self, Bool.and_true, Bool.true_and,
      Bool.not_true, Bool.not_false, Bool.false_eq_true, if_false, if_true,
      Bool.true_eq_false, ite_true, ite_false]
    exact ⟨_, _, rfl, rfl, rfl, rfl, rfl, rfl, rfl⟩
  · simp only [createPayment, persistNew, haT, jsTruthy, Option.getD_some, hlow2, hc2, hsp,
      insertDoc, validTransaction, hage, htidb, hupib, hnone, beq_self_eq_true,
      bne_self_eq_false, Bool.and_self, Bool.and_true, Bool.true_and,
      Bool.not_true, Bool.not_false, Bool.false_eq_true, if_false, if_true,
      Bool.true_eq_false, ite_true, ite_false]
    exact ⟨_, _, rfl, rfl, rfl, rfl, rfl, rfl, rfl⟩

/-- Witness for C5 at a concrete creation request. -/
theorem c5_create_pending_expiry_signed_witness :
    (0 : ℚ) < 250 ∧ ("phonepe" = "phonepe" ∨ ("phonepe" : String) = "paytm") ∧
    ("cw1" : String) ≠ "" ∧ ("m@sbi" : String) ≠ "" ∧
    findOne [] "cw1" = none ∧
    (∃ b t, createPayment none 1700000000123 { merchantUPI := "m@sbi", merchantSecret := "my_super_secret_key" }
        [] (some 250) (some "phonepe") none none "" "cw1" "s123"
        = (.ok b, [] ++ [t])
      ∧ t.status = "pending"
      ∧ t.expires = (1700000000123 / 1000 + 600) * 1000
      ∧ b.expires = 1700000000123 / 1000 + 600
      ∧ t.payload = b.payload ∧ t.signature = b.sig
      ∧ b.sig = createSignature none b.payload) :=
  ⟨by norm_num, Or.inl rfl, by decide, by decide, by decide,
   c5_create_pending_expiry_signed none 1700000000123
     { merchantUPI := "m@sbi", merchantSecret := "my_super_secret_key" }
     [] 250 "phonepe" none none "" "cw1" "s123"
     (by norm_num) (Or.inl rfl) (by decide) (by decide) (by decide)⟩

/--
Counterexample to C2: a verify call reporting the out-of-claim value
"expired" on a pending transaction does not fail with InvalidStatus; the
transition is applied and the call returns the 200 success body.
-/
theorem c2_counterexample :
    verifyPayment none 5 [c2tx] (some "t2") (some "expired") none
      = (.ok "t2" "expired" 10,
         [{ c2tx with status := "expired", completedAt := some 5 }]) := by
  decide

/--
C2 amended: the reported status is constrained only by the schema enum
(pending, success, failed, expired), not by the pair (success, failed): a
value outside the enum makes save() throw a validation error, surfaced as a
500 server error with no transition on any Resolve path, while every
in-enum value — including expired and pending — is accepted and applied.
-/
theorem c2_amended_enum_constraint
    (env : Option String) (now : Nat) (db : List Transaction) (tid : String)
    (tx : Transaction) (r : String)
    (hfind : findOne db tid = some tx) (hst : tx.status = "pending")
    (hvalid : validTransaction tx = true) (htid : tid ≠ "") (hrne : r ≠ "") :
    (statusEnum.contains r = false →
        verifyPayment env now db (some tid) (some r) none = (.serverError, db)
      ∧ simulatePayment now db (some tid) (some r) none = (.serverError, db)
      ∧ paymentWebhook env now db (some tid) (some r) none none none = (.serverError, db))
    ∧ (statusEnum.contains r = true →
        verifyPayment env now db (some tid) (some r) none =
          (.ok tx.tid r tx.amount,
           db.map (fun u => if u.tid == tx.tid then
             { tx with status := r, completedAt := some now } else u))) := by
  have htidb : (tid != "") = true := bne_iff_ne.mpr htid
  have hrb : (r != "") = true := bne_iff_ne.mpr hrne
  constructor
  · intro hcf
    refine ⟨?_, ?_, ?_⟩
    · simp only [verifyPayment, jsTruthy, htidb, hrb, Bool.and_self, Bool.not_true,
        Bool.false_eq_true, if_false, Option.getD_some, hfind, verifyDecide,
        Bool.false_and, hst, bne_self_eq_false, verifyCommit, saveDoc,
        validTransaction, hcf, Bool.and_false, if_true, if_false]
    · simp only [simulatePayment, simCommit, jsTruthy, htidb, hrb, Bool.and_self,
        Bool.not_true, Bool.false_eq_true, if_false, Option.getD_some, hfind, hst,
        bne_self_eq_false, saveDoc, validTransaction, hcf, Bool.and_false,
        if_true, if_false]
    · simp only [paymentWebhook, webhookCommit, jsTruthy, htidb, hrb, Bool.and_self,
        Bool.not_true, Bool.false_eq_true, if_false, Option.getD_some, hfind, hst,
        beq_self_eq_true, if_true, saveDoc, validTransaction, hcf,
        Bool.and_false, Bool.false_and, if_false]
  · intro hct
    have hv2 : validTransaction { tx with status := r, completedAt := some now } = true := by
      simp only [validTransaction] at hvalid ⊢
      simp only [Bool.and_eq_true] at hvalid ⊢
      exact ⟨⟨⟨⟨hvalid.1.1.1.1, hvalid.1.1.1.2⟩, hvalid.1.1.2⟩, hvalid.1.2⟩, hct⟩
    simp only [verifyPayment, jsTruthy, htidb, hrb, Bool.and_self, Bool.not_true,
      Bool.false_eq_true, if_false, Option.getD_some, hfind, verifyDecide,
      Bool.false_and, hst, bne_self_eq_false, verifyCommit, saveDoc, hv2, if_true]

/-- Witness for the amended C2 at a concrete out-of-enum reported status. -/
theorem c2_amended_enum_constraint_witness :
    findOne [c2tx] "t2" = some c2tx ∧ c2tx.status = "pending" ∧
    validTransaction c2tx = true ∧ ("t2" : String) ≠ "" ∧ ("banana" : String) ≠ "" ∧
    ((statusEnum.contains "banana" = false →
        verifyPayment none 5 [c2tx] (some "t2") (some "banana") none = (.serverError, [c2tx])
      ∧ simulatePayment 5 [c2tx] (some "t2") (some "banana") none = (.serverError, [c2tx])
      ∧ paymentWebhook none 5 [c2tx] (some "t2") (some "banana") none none none = (.serverError, [c2tx]))
    ∧ (statusEnum.contains "banana" = true →
        verifyPayment none 5 [c2tx] (some "t2") (some "banana") none =
          (.ok c2tx.tid "banana" c2tx.amount,
           [c2tx].map (fun u => if u.tid == c2tx.tid then
             { c2tx with status := "banana", completedAt := some 5 } else u)))) :=
  ⟨by decide, by decide, by decide, by decide, by decide,
   c2_amended_enum_constraint none 5 [c2tx] "t2" c2tx "banana"
     (by decide) (by decide) (by decide) (by decide) (by decide)⟩

/--
Counterexample to C4: a verify call on an already-expired transaction does
not return a non-fatal informational outcome; it returns the 400
error-shaped body (Transaction already expired), and the webhook path
acknowledges with 200 but its response carries no status at all.
-/
theorem c4_counterexample :
    verifyPayment none 5 [c4tx] (some "t4") (some "success") none
      = (.alreadyResolved "expired", [c4tx])
    ∧ verifyHttpStatus (.alreadyResolved "expired") = 400
    ∧ verifyIsErrorBody (.alreadyResolved "expired") = true
    ∧ paymentWebhook none 5 [c4tx] (some "t4") (some "success") (some 10) none none
      = (.okProcessed, [c4tx]) := by
  decide

/--
C4 amended: Resolve on a non-pending transaction never changes state:
verify and simulate surface a 400 error body naming the existing terminal
status, while the webhook acknowledges with a 200 success body that does not
carry the status; repeated identical webhook deliveries never double-apply
because the second delivery finds the record non-pending and leaves the
store untouched.
-/
theorem c4_amended_already_resolved
    (env : Option String) (now : Nat) (db : List Transaction) (tid : String)
    (tx : Transaction) (r : String) (amt : Option ℚ) (upiRef sig : Option String)
    (hfind : findOne db tid = some tx) (hst : tx.status ≠ "pending")
    (htid : tid ≠ "") (hrne : r ≠ "") :
    verifyPayment env now db (some tid) (some r) none = (.alreadyResolved tx.status, db)
    ∧ simulatePayment now db (some tid) (some r) sig = (.alreadyResolved tx.status, db)
    ∧ paymentWebhook env now db (some tid) (some r) amt upiRef none = (.okProcessed, db)
    ∧ (∀ (db0 : List Transaction) (tx0 : Transaction) (now2 : Nat),
        findOne db0 tid = some tx0 → tx0.status = "pending" →
        validTransaction tx0 = true → statusEnum.contains r = true → r ≠ "pending" →
        paymentWebhook env now2 (paymentWebhook env now db0 (some tid) (some r) amt upiRef none).2
            (some tid) (some r) amt upiRef none
          = (.okProcessed, (paymentWebhook env now db0 (some tid) (some r) amt upiRef none).2)) := by
  have htidb : (tid != "") = true := bne_iff_ne.mpr htid
  have hrb : (r != "") = true := bne_iff_ne.mpr hrne
  have hstb : (tx.status != "pending") = true := bne_iff_ne.mpr hst
  have hstb2 : (tx.status == "pending") = false := by
    cases h : tx.status == "pending"
    · rfl
    · exact absurd (beq_iff_eq.mp h) hst
  refine ⟨?_, ?_, ?_, ?_⟩
  · simp only [verifyPayment, jsTruthy, htidb, hrb, Bool.and_self, Bool.not_true,
      Bool.false_eq_true, if_false, Option.getD_some, hfind, verifyDecide,
      Bool.false_and, hstb, if_true]
  · simp only [simulatePayment, jsTruthy, htidb, hrb, Bool.and_self, Bool.not_true,
      Bool.false_eq_true, if_false, Option.getD_some, hfind, hstb, if_true]
  · simp only [paymentWebhook, jsTruthy, htidb, hrb, Bool.and_self, Bool.not_true,
      Bool.false_eq_true, if_false, Option.getD_some, hfind, Bool.false_and,
      hstb2, if_true]
  · intro db0 tx0 now2 hf0 hst0 hvalid0 hcont hrp
    have htj : jsTruthy (some tid) = true := htidb
    have hrj : jsTruthy (some r) = true := hrb
    have hv2 : ∀ u, validTransaction { tx0 with status := r, completedAt := some now, upiRef := u } = true := by
      intro u
      simp only [validTransaction] at hvalid0 ⊢
      simp only [Bool.and_eq_true] at hvalid0 ⊢
      exact ⟨⟨⟨⟨hvalid0.1.1.1.1, hvalid0.1.1.1.2⟩, hvalid0.1.1.2⟩, hvalid0.1.2⟩, hcont⟩
    have hfirst : paymentWebhook env now db0 (some tid) (some r) amt upiRef none
        = (.okProcessed,
           db0.map (fun u => if u.tid == tx0.tid then { tx0 with status := r, completedAt := some now, upiRef := if jsTruthy upiRef then upiRef else tx0.upiRef } else u)) := by
      simp only [paymentWebhook, webhookCommit, htj, hrj, jsTruthy, htidb, hrb,
        Bool.and_self, Bool.not_true, Bool.false_eq_true, if_false,
        Option.getD_some, hf0, hst0, Bool.false_and, beq_self_eq_true, if_true,
        saveDoc, hv2]
    rw [hfirst]
    have hf1 : findOne
        (db0.map (fun u => if u.tid == tx0.tid then { tx0 with status := r, completedAt := some now, upiRef := if jsTruthy upiRef then upiRef else tx0.upiRef } else u)) tid
        = some { tx0 with status := r, completedAt := some now, upiRef := if jsTruthy upiRef then upiRef else tx0.upiRef } := by
      exact findOne_replace _ hf0 rfl
    have hrpb : (r == "pending") = false := by
      cases h : r == "pending"
      · rfl
      · exact absurd (beq_iff_eq.mp h) hrp
    have hjn : jsTruthy none = false := rfl
    simp only [paymentWebhook, htj, hrj, Bool.and_self, Bool.not_true,
      Bool.false_eq_true, if_false, Option.getD_some, hf1, Bool.false_and, hrpb,
      hjn, if_true]

lemma jsMathFloor_eq_floor (q : ℚ) : jsMathFloor q = ⌊q⌋ := by
  rw [Rat.floor_def, jsMathFloor]
  exact Int.fdiv_eq_ediv q.num (Int.natCast_nonneg q.den)

lemma specMinorUnits_eq_round (a : ℚ) : specMinorUnits a = round (a * 100) := by
  rw [specMinorUnits, jsMathFloor_eq_floor, round_eq]

/-- Witness for the amended C4 at a concrete expired transaction. -/
theorem c4_amended_already_resolved_witness :
    findOne [c4tx] "t4" = some c4tx ∧ c4tx.status ≠ "pending" ∧
    ("t4" : String) ≠ "" ∧ ("success" : String) ≠ "" ∧
    (verifyPayment none 5 [c4tx] (some "t4") (some "success") none
        = (.alreadyResolved c4tx.status, [c4tx])
    ∧ simulatePayment 5 [c4tx] (some "t4") (some "success") none
        = (.alreadyResolved c4tx.status, [c4tx])
    ∧ paymentWebhook none 5 [c4tx] (some "t4") (some "success") (some 10) none none
        = (.okProcessed, [c4tx])
    ∧ (∀ (db0 : List Transaction) (tx0 : Transaction) (now2 : Nat),
        findOne db0 "t4" = some tx0 → tx0.status = "pending" →
        validTransaction tx0 = true → statusEnum.contains "success" = true →
        ("success" : String) ≠ "pending" →
        paymentWebhook none now2
            (paymentWebhook none 5 db0 (some "t4") (some "success") (some 10) none none).2
            (some "t4") (some "success") (some 10) none none
          = (.okProcessed,
             (paymentWebhook none 5 db0 (some "t4") (some "success") (some 10) none none).2))) :=
  ⟨by decide, by decide, by decide, by decide,
   c4_amended_already_resolved none 5 [c4tx] "t4" c4tx "success" (some 10) none none
     (by decide) (by decide) (by decide) (by decide)⟩

set_option maxRecDepth 200000 in
/--
Counterexample to C3: a webhook delivery whose signature is exactly the HMAC
of the stored payload of the transaction is rejected with InvalidSignature,
because the webhook path recomputes the expected signature over the request
concatenation tid ++ status ++ amount, not over the stored payload.
-/
theorem c3_counterexample :
    paymentWebhook none 5 [c3tx] (some "t3") (some "success") (some 100)
        none (some (createSignature none c3tx.payload))
      = (.invalidSignature, [c3tx]) := by
  decide

/--
C3 amended: signature handling differs per Resolve path.  verifyPayment
checks the supplied signature against the HMAC of the stored payload and a
mismatch fails with InvalidSignature and no state change; paymentWebhook
checks it against the HMAC of tid ++ status ++ amount from the request body,
likewise failing with no state change on mismatch; simulatePayment ignores
any supplied signature entirely.
-/
theorem c3_amended_signature_paths
    (env : Option String) (now : Nat) (db : List Transaction) (tid : String)
    (tx : Transaction) (r sig : String) (amt : Option ℚ) (upiRef : Option String)
    (hfind : findOne db tid = some tx) (htid : tid ≠ "") (hrne : r ≠ "")
    (hsig : sig ≠ "") :
    (sig ≠ createSignature env tx.payload →
      verifyPayment env now db (some tid) (some r) (some sig) = (.invalidSignature, db))
    ∧ (sig ≠ hmacHex (MERCHANT_SECRET env) (tid ++ r ++ jsTemplateNum amt) →
      paymentWebhook env now db (some tid) (some r) amt upiRef (some sig) = (.invalidSignature, db))
    ∧ (∀ s1 s2, simulatePayment now db (some tid) (some r) s1
        = simulatePayment now db (some tid) (some r) s2) := by
  have htidb : (tid != "") = true := bne_iff_ne.mpr htid
  have hrb : (r != "") = true := bne_iff_ne.mpr hrne
  have hsb : (sig != "") = true := bne_iff_ne.mpr hsig
  refine ⟨?_, ?_, fun s1 s2 => rfl⟩
  · intro hne
    have hneb : (sig != createSignature env tx.payload) = true := bne_iff_ne.mpr hne
    simp only [verifyPayment, jsTruthy, htidb, hrb, Bool.and_self, Bool.not_true,
      Bool.false_eq_true, if_false, Option.getD_some, hfind, verifyDecide, hsb,
      hneb, Bool.and_self, if_true]
  · intro hne
    have hneb : (sig != hmacHex (MERCHANT_SECRET env) (tid ++ r ++ jsTemplateNum amt)) = true :=
      bne_iff_ne.mpr hne
    simp only [paymentWebhook, jsTruthy, htidb, hrb, Bool.and_self, Bool.not_true,
      Bool.false_eq_true, if_false, Option.getD_some, hfind, hsb, hneb, if_true]

set_option maxRecDepth 200000 in
/-- Witness for the amended C3 at concrete mismatching signatures. -/
theorem c3_amended_signature_paths_witness :
    findOne [c3tx] "t3" = some c3tx ∧ ("t3" : String) ≠ "" ∧
    ("success" : String) ≠ "" ∧ c3sig ≠ "" ∧
    ((c3sig ≠ createSignature none c3tx.payload →
      verifyPayment none 5 [c3tx] (some "t3") (some "success") (some c3sig)
        = (.invalidSignature, [c3tx]))
    ∧ (c3sig ≠ hmacHex (MERCHANT_SECRET none) ("t3" ++ "success" ++ jsTemplateNum (some 100)) →
      paymentWebhook none 5 [c3tx] (some "t3") (some "success") (some 100) none (some c3sig)
        = (.invalidSignature, [c3tx]))
    ∧ (∀ s1 s2, simulatePayment 5 [c3tx] (some "t3") (some "success") s1
        = simulatePayment 5 [c3tx] (some "t3") (some "success") s2)) :=
  ⟨by decide, by decide, by decide, by decide,
   c3_amended_signature_paths none 5 [c3tx] "t3" c3tx "success" c3sig (some 100) none
     (by decide) (by decide) (by decide) (by decide)⟩

/--
Counterexample to C6: the terminal transition is not a conditional write.
verifyPayment is findOne (await), an in-memory decision, then save (await);
in the interleaving where two calls both run findOne on the same pending
record before either saves, both decisions commit and both saves return the
200 success body — two concurrent Resolve calls both succeed, and the
second overwrites the first.
-/
theorem c6_counterexample :
    verifyPayment none 5 [c6tx] (some "t6") (some "success") none
      = verifyCommit [c6tx] { c6tx with status := "success", completedAt := some 5 }
    ∧ verifyDecide none 5 c6tx "success" none
      = .commit { c6tx with status := "success", completedAt := some 5 }
    ∧ verifyDecide none 6 c6tx "failed" none
      = .commit { c6tx with status := "failed", completedAt := some 6 }
    ∧ (verifyCommit [c6tx] { c6tx with status := "success", completedAt := some 5 }).1
      = .ok "t6" "success" 10
    ∧ verifyCommit
        (verifyCommit [c6tx] { c6tx with status := "success", completedAt := some 5 }).2
        { c6tx with status := "failed", completedAt := some 6 }
      = (.ok "t6" "failed" 10, [{ c6tx with status := "failed", completedAt := some 6 }]) := by
  decide

/--
C6 amended: the write is an unconditional document save guarded only by the
status read before it.  Run sequentially, at most one Resolve succeeds: after
a successful verify every later verify or simulate returns AlreadyResolved
and the webhook leaves the store unchanged.  But the update is not a
conditional write on status = pending: whenever two Resolve calls both read
the same pending record before either saves, both commits succeed.
-/
theorem c6_amended_unconditional_save
    (env : Option String) (now now2 : Nat) (db : List Transaction) (tid : String)
    (tx : Transaction) (r r2 : String) (amt : Option ℚ) (upiRef : Option String)
    (hfind : findOne db tid = some tx) (hst : tx.status = "pending")
    (hvalid : validTransaction tx = true) (htid : tid ≠ "")
    (hcr : statusEnum.contains r = true) (hrp : r ≠ "pending")
    (hcr2 : statusEnum.contains r2 = true) (hr2ne : r2 ≠ "") :
    verifyPayment env now db (some tid) (some r) none
      = (.ok tx.tid r tx.amount,
         db.map (fun u => if u.tid == tx.tid then
           { tx with status := r, completedAt := some now } else u))
    ∧ verifyPayment env now2
        (db.map (fun u => if u.tid == tx.tid then
          { tx with status := r, completedAt := some now } else u))
        (some tid) (some r2) none
      = (.alreadyResolved r,
         db.map (fun u => if u.tid == tx.tid then
           { tx with status := r, completedAt := some now } else u))
    ∧ simulatePayment now2
        (db.map (fun u => if u.tid == tx.tid then
          { tx with status := r, completedAt := some now } else u))
        (some tid) (some r2) none
      = (.alreadyResolved r,
         db.map (fun u => if u.tid == tx.tid then
           { tx with status := r, completedAt := some now } else u))
    ∧ paymentWebhook env now2
        (db.map (fun u => if u.tid == tx.tid then
          { tx with status := r, completedAt := some now } else u))
        (some tid) (some r2) amt upiRef none
      = (.okProcessed,
         db.map (fun u => if u.tid == tx.tid then
           { tx with status := r, completedAt := some now } else u))
    ∧ verifyDecide env now tx r none = .commit { tx with status := r, completedAt := some now }
    ∧ verifyDecide env now2 tx r2 none = .commit { tx with status := r2, completedAt := some now2 }
    ∧ (verifyCommit db { tx with status := r, completedAt := some now }).1
      = .ok tx.tid r tx.amount
    ∧ (verifyCommit
        (verifyCommit db { tx with status := r, completedAt := some now }).2
        { tx with status := r2, completedAt := some now2 }).1
      = .ok tx.tid r2 tx.amount := by
  have htidb : (tid != "") = true := bne_iff_ne.mpr htid
  have hrne : r ≠ "" := by
    intro h; subst h; simp [statusEnum, List.contains] at hcr
  have hrb : (r != "") = true := bne_iff_ne.mpr hrne
  have hr2b : (r2 != "") = true := bne_iff_ne.mpr hr2ne
  have hv2 : validTransaction { tx with status := r, completedAt := some now } = true := by
    simp only [validTransaction] at hvalid ⊢
    simp only [Bool.and_eq_true] at hvalid ⊢
    exact ⟨⟨⟨⟨hvalid.1.1.1.1, hvalid.1.1.1.2⟩, hvalid.1.1.2⟩, hvalid.1.2⟩, hcr⟩
  have hv3 : validTransaction { tx with status := r2, completedAt := some now2 } = true := by
    simp only [validTransaction] at hvalid ⊢
    simp only [Bool.and_eq_true] at hvalid ⊢
    exact ⟨⟨⟨⟨hvalid.1.1.1.1, hvalid.1.1.1.2⟩, hvalid.1.1.2⟩, hvalid.1.2⟩, hcr2⟩
  have hf1 : findOne
      (db.map (fun u => if u.tid == tx.tid then
        { tx with status := r, completedAt := some now } else u)) tid
      = some { tx with status := r, completedAt := some now } :=
    findOne_replace _ hfind rfl
  have hrpb : (r != "pending") = true := bne_iff_ne.mpr hrp
  have hrpb2 : (r == "pending") = false := by
    cases h : r == "pending"
    · rfl
    · exact absurd (beq_iff_eq.mp h) hrp
  refine ⟨?_, ?_, ?_, ?_, ?_, ?_, ?_, ?_⟩
  · simp only [verifyPayment, jsTruthy, htidb, hrb, Bool.and_self, Bool.not_true,
      Bool.false_eq_true, if_false, Option.getD_some, hfind, verifyDecide,
      Bool.false_and, hst, bne_self_eq_false, verifyCommit, saveDoc, hv2, if_true]
  · simp only [verifyPayment, jsTruthy, htidb, hr2b, Bool.and_self, Bool.not_true,
      Bool.false_eq_true, if_false, Option.getD_some, hf1, verifyDecide,
      Bool.false_and, hrpb, if_true]
  · simp only [simulatePayment, jsTruthy, htidb, hr2b, Bool.and_self, Bool.not_true,
      Bool.false_eq_true, if_false, Option.getD_some, hf1, hrpb, if_true]
  · simp only [paymentWebhook, jsTruthy, htidb, hr2b, Bool.and_self, Bool.not_true,
      Bool.false_eq_true, if_false, Option.getD_some, hf1, Bool.false_and, hrpb2,
      if_true]
  · simp only [verifyDecide, jsTruthy, Bool.false_and, hst, bne_self_eq_false,
      Bool.false_eq_true, if_false]
  · simp only [verifyDecide, jsTruthy, Bool.false_and, hst, bne_self_eq_false,
      Bool.false_eq_true, if_false]
  · simp only [verifyCommit, saveDoc, hv2, if_true]
  · simp only [verifyCommit, saveDoc, hv2, if_true]
    have hf2 : findOne
        (db.map (fun u => if u.tid == tx.tid then
          { tx with status := r, completedAt := some now } else u)) tid
        = some { tx with status := r, completedAt := some now } := hf1
    simp only [saveDoc, hv3]
    simp [hv3]

/-- Witness for the amended C6 at a concrete pending transaction. -/
theorem c6_amended_unconditional_save_witness :
    findOne [c6tx] "t6" = some c6tx ∧ c6tx.status = "pending" ∧
    validTransaction c6tx = true ∧ ("t6" : String) ≠ "" ∧
    statusEnum.contains "success" = true ∧ ("success" : String) ≠ "pending" ∧
    statusEnum.contains "failed" = true ∧ ("failed" : String) ≠ "" ∧
    (verifyPayment none 5 [c6tx] (some "t6") (some "success") none
      = (.ok c6tx.tid "success" c6tx.amount,
         [c6tx].map (fun u => if u.tid == c6tx.tid then
           { c6tx with status := "success", completedAt := some 5 } else u))
    ∧ verifyPayment none 6
        ([c6tx].map (fun u => if u.tid == c6tx.tid then
          { c6tx with status := "success", completedAt := some 5 } else u))
        (some "t6") (some "failed") none
      = (.alreadyResolved "success",
         [c6tx].map (fun u => if u.tid == c6tx.tid then
           { c6tx with status := "success", completedAt := some 5 } else u))
    ∧ simulatePayment 6
        ([c6tx].map (fun u => if u.tid == c6tx.tid then
          { c6tx with status := "success", completedAt := some 5 } else u))
        (some "t6") (some "failed") none
      = (.alreadyResolved "success",
         [c6tx].map (fun u => if u.tid == c6tx.tid then
           { c6tx with status := "success", completedAt := some 5 } else u))
    ∧ paymentWebhook none 6
        ([c6tx].map (fun u => if u.tid == c6tx.tid then
          { c6tx with status := "success", completedAt := some 5 } else u))
        (some "t6") (some "failed") none none none
      = (.okProcessed,
         [c6tx].map (fun u => if u.tid == c6tx.tid then
           { c6tx with status := "success", completedAt := some 5 } else u))
    ∧ verifyDecide none 5 c6tx "success" none
      = .commit { c6tx with status := "success", completedAt := some 5 }
    ∧ verifyDecide none 6 c6tx "failed" none
      = .commit { c6tx with status := "failed", completedAt := some 6 }
    ∧ (verifyCommit [c6tx] { c6tx with status := "success", completedAt := some 5 }).1
      = .ok c6tx.tid "success" c6tx.amount
    ∧ (verifyCommit
        (verifyCommit [c6tx] { c6tx with status := "success", completedAt := some 5 }).2
        { c6tx with status := "failed", completedAt := some 6 }).1
      = .ok c6tx.tid "failed" c6tx.amount) :=
  ⟨by decide, by decide, by decide, by decide, by decide, by decide, by decide, by decide,
   c6_amended_unconditional_save none 5 6 [c6tx] "t6" c6tx "success" "failed" none none
     (by decide) (by decide) (by decide) (by decide) (by decide) (by decide)
     (by decide) (by decide)⟩

set_option maxRecDepth 400000 in
/--
Counterexample to C7: with the configuration record holding merchantSecret
"rotated_secret", the signature produced at creation is the HMAC under the
process-environment default secret, not under the configured merchant
secret — the settings field merchantSecret is never read by createPayment.
-/
theorem c7_counterexample :
    createRespPayload c7result.1 = some c7payload
    ∧ createRespSig c7result.1 = some (hmacHex "my_super_secret_key" c7payload)
    ∧ hmacHex "my_super_secret_key" c7payload ≠ hmacHex "rotated_secret" c7payload := by
  with_unfolding_all decide

/--
C7 amended: createPayment reads the receive-address from the configuration
record but never its merchantSecret field — the result is unchanged under any
rewrite of merchantSecret, and the signature is the HMAC under the process
environment secret.
-/
theorem c7_amended_secret_source
    (env : Option String) (now : Nat) (settings : Settings) (x : String)
    (db : List Transaction) (a : ℚ) (pt : String) (orderId userId : Option String)
    (ua tid note : String)
    (ha : 0 < a) (hpt : pt = "phonepe" ∨ pt = "paytm") (htid : tid ≠ "")
    (hupi : settings.merchantUPI ≠ "") (hfresh : findOne db tid = none) :
    createPayment env now { merchantUPI := settings.merchantUPI, merchantSecret := x } db
        (some a) (some pt) orderId userId ua tid note
      = createPayment env now settings db (some a) (some pt) orderId userId ua tid note
    ∧ ∃ b t, createPayment env now settings db (some a) (some pt) orderId userId ua tid note
        = (.ok b, db ++ [t])
      ∧ t.upi = settings.merchantUPI
      ∧ b.sig = createSignature env b.payload
      ∧ t.signature = createSignature env t.payload := by
  refine ⟨rfl, ?_⟩
  have haT : jsTruthyNum (some a) = true := by
    simp only [jsTruthyNum]; exact bne_iff_ne.mpr ha.ne'
  have hage : decide (0 ≤ a) = true := decide_eq_true ha.le
  have htidb : (tid != "") = true := bne_iff_ne.mpr htid
  have hupib : (settings.merchantUPI != "") = true := bne_iff_ne.mpr hupi
  have hnone : (findOne db tid).isNone = true := by rw [hfresh]; rfl
  have hlow1 : jsTrim (jsToLower "phonepe") = "phonepe" := by decide
  have hlow2 : jsTrim (jsToLower "paytm") = "paytm" := by decide
  have hc1 : payTypeEnum.contains "phonepe" = true := by decide
  have hc2 : payTypeEnum.contains "paytm" = true := by decide
  have hsp : statusEnum.contains "pending" = true := by decide
  rcases hpt with h | h <;> subst h
  · simp only [createPayment, persistNew, haT, jsTruthy, Option.getD_some, hlow1, hc1, hsp,
      insertDoc, validTransaction, hage, htidb, hupib, hnone, beq_self_eq_true,
      bne_self_eq_false, Bool.and_self, Bool.and_true, Bool.true_and,
      Bool.not_true, Bool.not_false, Bool.false_eq_true, if_false, if_true,
      Bool.true_eq_false, ite_true, ite_false]
    exact ⟨_, _, rfl, rfl, rfl, rfl⟩
  · simp only [createPayment, persistNew, haT, jsTruthy, Option.getD_some, hlow2, hc2, hsp,
      insertDoc, validTransaction, hage, htidb, hupib, hnone, beq_self_eq_true,
      bne_self_eq_false, Bool.and_self, Bool.and_true, Bool.true_and,
      Bool.not_true, Bool.not_false, Bool.false_eq_true, if_false, if_true,
      Bool.true_eq_false, ite_true, ite_false]
    exact ⟨_, _, rfl, rfl, rfl, rfl⟩

/-- Witness for the amended C7 at a concrete creation request. -/
theorem c7_amended_secret_source_witness :
    (0 : ℚ) < 250 ∧ ("phonepe" = "phonepe" ∨ ("phonepe" : String) = "paytm") ∧
    ("cw7b" : String) ≠ "" ∧ ("m@sbi" : String) ≠ "" ∧ findOne [] "cw7b" = none ∧
    (createPayment none 1700000000123
        { merchantUPI := ({ merchantUPI := "m@sbi", merchantSecret := "sec1" } : Settings).merchantUPI,
          merchantSecret := "other" } [] (some 250) (some "phonepe") none none "" "cw7b" "s123"
      = createPayment none 1700000000123 { merchantUPI := "m@sbi", merchantSecret := "sec1" }
          [] (some 250) (some "phonepe") none none "" "cw7b" "s123"
    ∧ ∃ b t, createPayment none 1700000000123 { merchantUPI := "m@sbi", merchantSecret := "sec1" }
          [] (some 250) (some "phonepe") none none "" "cw7b" "s123"
        = (.ok b, [] ++ [t])
      ∧ t.upi = ({ merchantUPI := "m@sbi", merchantSecret := "sec1" } : Settings).merchantUPI
      ∧ b.sig = createSignature none b.payload
      ∧ t.signature = createSignature none t.payload) :=
  ⟨by norm_num, Or.inl rfl, by decide, by decide, by decide,
   c7_amended_secret_source none 1700000000123
     { merchantUPI := "m@sbi", merchantSecret := "sec1" } "other"
     [] 250 "phonepe" none none "" "cw7b" "s123"
     (by norm_num) (Or.inl rfl) (by decide) (by decide) (by decide)⟩

set_option maxRecDepth 400000 in
/--
Counterexample to C8: Create with the negative amount -5 passes the falsy
input check, builds and signs a payload, and only fails when the schema
min-0 constraint rejects the save — surfacing as the generic 500 create
failure, not the InvalidAmount validation rejection produced for amount 0.
No record is persisted in either case.
-/
theorem c8_counterexample :
    createPayment none 1700000000123 { merchantUPI := "m@sbi", merchantSecret := "k" }
        [] (some (-5)) (some "phonepe") none none "" "cw8" "s111"
      = (.serverError, [])
    ∧ createPayment none 1700000000123 { merchantUPI := "m@sbi", merchantSecret := "k" }
        [] (some 0) (some "phonepe") none none "" "cw8" "s111"
      = (.invalidPayload, []) := by
  with_unfolding_all decide

/--
C8 amended: for every non-positive amount no record is persisted and the
call never succeeds; amount 0 is rejected up front by the falsy-payload
check (400 Invalid payload), while negative amounts are rejected only at
persistence by the schema min-0 validation (500 create failure).
-/
theorem c8_amended_nonpositive_never_persists
    (env : Option String) (now : Nat) (settings : Settings) (db : List Transaction)
    (a : ℚ) (pt orderId userId : Option String) (ua tid note : String)
    (ha : a ≤ 0) :
    (createPayment env now settings db (some a) pt orderId userId ua tid note).2 = db
    ∧ ∀ b, (createPayment env now settings db (some a) pt orderId userId ua tid note).1 ≠ .ok b := by
  by_cases h0 : a = 0
  · subst h0
    have hf : jsTruthyNum (some 0) = false := by
      simp [jsTruthyNum]
    simp [createPayment, hf]
  · have hlt : a < 0 := lt_of_le_of_ne ha h0
    have hfalse : decide (0 ≤ a) = false := decide_eq_false (not_le.mpr hlt)
    simp only [createPayment, Option.getD_some]
    split
    · exact ⟨rfl, fun b => by simp⟩
    · split
      · exact ⟨rfl, fun b => by simp⟩
      · split
        · simp only [persistNew, insertDoc, validTransaction, hfalse, Bool.and_false,
            Bool.false_and, Bool.false_eq_true, if_false]
          exact ⟨trivial, fun b => by simp⟩
        · simp only [persistNew, insertDoc, validTransaction, hfalse, Bool.and_false,
            Bool.false_and, Bool.false_eq_true, if_false]
          exact ⟨trivial, fun b => by simp⟩

/-- Witness for the amended C8 at a concrete negative amount. -/
theorem c8_amended_nonpositive_never_persists_witness :
    (-5 : ℚ) ≤ 0 ∧
    ((createPayment none 1700000000123 { merchantUPI := "m@sbi", merchantSecret := "k" }
        [] (some (-5)) (some "phonepe") none none "" "cw8" "s111").2 = []
    ∧ ∀ b, (createPayment none 1700000000123 { merchantUPI := "m@sbi", merchantSecret := "k" }
        [] (some (-5)) (some "phonepe") none none "" "cw8" "s111").1 ≠ .ok b) :=
  ⟨by norm_num,
   c8_amended_nonpositive_never_persists none 1700000000123
     { merchantUPI := "m@sbi", merchantSecret := "k" } [] (-5) (some "phonepe")
     none none "" "cw8" "s111" (by norm_num)⟩

set_option maxRecDepth 400000 in
/--
Counterexample to C9: for amount 3/16 the ProviderA payload carries
initialAmount 18 = Math.floor(18.75), while rounding to the nearest integer
(JS Math.round and Mathlib round alike) gives 19.
-/
theorem c9_counterexample :
    createRespPayload c9result.1
      = some (base64Encode (strBytes (phonepePayloadJson "m@sbi" "s123" 18)))
    ∧ jsMathFloor ((3 : ℚ)/16 * 100) = 18
    ∧ specMinorUnits ((3 : ℚ)/16) = 19
    ∧ round ((3 : ℚ)/16 * 100) = 19 := by
  refine ⟨?_, ?_, ?_, ?_⟩
  · with_unfolding_all decide
  · with_unfolding_all decide
  · with_unfolding_all decide
  · rw [← specMinorUnits_eq_round]; with_unfolding_all decide

/--
C9 amended: the ProviderA payload built by createPayment carries the amount
in minor units equal to the floor of amount × 100, not the nearest integer.
-/
theorem c9_amended_floor_minor_units
    (env : Option String) (now : Nat) (settings : Settings) (db : List Transaction)
    (a : ℚ) (orderId userId : Option String) (ua tid note : String)
    (ha : 0 < a) (htid : tid ≠ "") (hupi : settings.merchantUPI ≠ "")
    (hfresh : findOne db tid = none) :
    ∃ b t, createPayment env now settings db (some a) (some "phonepe") orderId userId ua tid note
        = (.ok b, db ++ [t])
      ∧ b.payload = base64Encode (strBytes
          (phonepePayloadJson settings.merchantUPI note (jsMathFloor (a * 100))))
      ∧ t.payload = b.payload
      ∧ jsMathFloor (a * 100) = ⌊a * 100⌋ := by
  have haT : jsTruthyNum (some a) = true := by
    simp only [jsTruthyNum]; exact bne_iff_ne.mpr ha.ne'
  have hage : decide (0 ≤ a) = true := decide_eq_true ha.le
  have htidb : (tid != "") = true := bne_iff_ne.mpr htid
  have hupib : (settings.merchantUPI != "") = true := bne_iff_ne.mpr hupi
  have hnone : (findOne db tid).isNone = true := by rw [hfresh]; rfl
  have hlow1 : jsTrim (jsToLower "phonepe") = "phonepe" := by decide
  have hc1 : payTypeEnum.contains "phonepe" = true := by decide
  have hsp : statusEnum.contains "pending" = true := by decide
  simp only [createPayment, persistNew, haT, jsTruthy, Option.getD_some, hlow1, hc1, hsp,
    insertDoc, validTransaction, hage, htidb, hupib, hnone, beq_self_eq_true,
    bne_self_eq_false, Bool.and_self, Bool.and_true, Bool.true_and,
    Bool.not_true, Bool.not_false, Bool.false_eq_true, if_false, if_true,
    Bool.true_eq_false, ite_true, ite_false]
  exact ⟨_, _, rfl, rfl, rfl, jsMathFloor_eq_floor (a * 100)⟩

/-- Witness for the amended C9 at the concrete amount 3/16. -/
theorem c9_amended_floor_minor_units_witness :
    (0 : ℚ) < (3 : ℚ)/16 ∧ ("cw9" : String) ≠ "" ∧ ("m@sbi" : String) ≠ "" ∧
    findOne [] "cw9" = none ∧
    (∃ b t, createPayment none 1700000000123 { merchantUPI := "m@sbi", merchantSecret := "k" }
          [] (some ((3 : ℚ)/16)) (some "phonepe") none none "" "cw9" "s123"
        = (.ok b, [] ++ [t])
      ∧ b.payload = base64Encode (strBytes
          (phonepePayloadJson "m@sbi" "s123" (jsMathFloor ((3 : ℚ)/16 * 100))))
      ∧ t.payload = b.payload
      ∧ jsMathFloor ((3 : ℚ)/16 * 100) = ⌊(3 : ℚ)/16 * 100⌋) :=
  ⟨by norm_num, by decide, by decide, by decide,
   c9_amended_floor_minor_units none 1700000000123
     { merchantUPI := "m@sbi", merchantSecret := "k" } [] ((3 : ℚ)/16) none none
     "" "cw9" "s123" (by norm_num) (by decide) (by decide) (by decide)⟩

/--
Counterexample to C1: the lazy expiry in checkPaymentStatus sets status to
expired without ever setting completedAt, so the record it produces has a
terminal status and a null completedAt — the claimed iff fails after a
GetStatus call on an expired pending transaction.
-/
theorem c1_counterexample :
    checkPaymentStatus 2000 [c1tx] (some "t1")
      = (.ok "t1" "expired" 10 "phonepe" "m@sbi" none, [{ c1tx with status := "expired" }])
    ∧ ({ c1tx with status := "expired" } : Transaction).status ≠ "pending"
    ∧ ({ c1tx with status := "expired" } : Transaction).completedAt = none
    ∧ ¬ completedAtInv { c1tx with status := "expired" } := by
  refine ⟨by decide, by decide, by decide, ?_⟩
  intro h
  exact absurd (h.mpr (by decide)) (by decide)

lemma inv_after_replace {db : List Transaction} {t2 : Transaction} {s : String}
    (hdb : ∀ t ∈ db, completedAtInv t) (h2 : completedAtInv t2) :
    ∀ t ∈ db.map (fun u => if u.tid == s then t2 else u), completedAtInv t := by
  intro t ht
  rcases mem_replace ht with h | h
  · exact h ▸ h2
  · exact hdb t h

lemma inv_persistNew {db : List Transaction} (hdb : ∀ t ∈ db, completedAtInv t)
    {t0 : Transaction} (h0 : completedAtInv t0) (b : CreateBundle) :
    ∀ t ∈ (persistNew db t0 b).2, completedAtInv t := by
  rcases hC : (validTransaction t0 && (findOne db t0.tid).isNone) with _ | _ <;>
    simp only [persistNew, insertDoc, hC, Bool.false_eq_true, if_false, if_true]
  · exact hdb
  · intro t ht
    rcases List.mem_append.mp ht with h | h
    · exact hdb t h
    · rcases List.mem_singleton.mp h with rfl
      exact h0

lemma inv_verifyCommit {db : List Transaction} (hdb : ∀ t ∈ db, completedAtInv t)
    {t2 : Transaction} (h2 : completedAtInv t2) :
    ∀ t ∈ (verifyCommit db t2).2, completedAtInv t := by
  rcases hC : validTransaction t2 with _ | _ <;>
    simp only [verifyCommit, saveDoc, hC, Bool.false_eq_true, if_false, if_true]
  · exact hdb
  · exact inv_after_replace hdb h2

lemma inv_webhookCommit {db : List Transaction} (hdb : ∀ t ∈ db, completedAtInv t)
    {t2 : Transaction} (h2 : completedAtInv t2) :
    ∀ t ∈ (webhookCommit db t2).2, completedAtInv t := by
  rcases hC : validTransaction t2 with _ | _ <;>
    simp only [webhookCommit, saveDoc, hC, Bool.false_eq_true, if_false, if_true]
  · exact hdb
  · exact inv_after_replace hdb h2

lemma inv_simCommit {db : List Transaction} (hdb : ∀ t ∈ db, completedAtInv t)
    {t2 : Transaction} (h2 : completedAtInv t2) (tid st : String) (amt : ℚ) :
    ∀ t ∈ (simCommit db t2 tid st amt).2, completedAtInv t := by
  rcases hC : validTransaction t2 with _ | _ <;>
    simp only [simCommit, saveDoc, hC, Bool.false_eq_true, if_false, if_true]
  · exact hdb
  · exact inv_after_replace hdb h2

lemma verifyDecide_cases (env : Option String) (now : Nat) (tx : Transaction)
    (st : String) (sig : Option String) :
    (∃ r0, verifyDecide env now tx st sig = .reject r0) ∨
    verifyDecide env now tx st sig = .commit { tx with status := st, completedAt := some now } := by
  unfold verifyDecide
  split
  · exact Or.inl ⟨_, rfl⟩
  · split
    · exact Or.inl ⟨_, rfl⟩
    · exact Or.inr rfl

/--
C1 amended: the completedAt iff status invariant is preserved by Create and
by each Resolve path when the reported status is success or failed, but it
does not survive the lazy expiry in checkPaymentStatus: that path produces a
record with status expired and completedAt still null.
-/
theorem c1_amended_completedAt_invariant
    (env : Option String) (now : Nat) (settings : Settings) (db : List Transaction)
    (hdb : ∀ t ∈ db, completedAtInv t) :
    (∀ (amount : Option ℚ) (payType orderId userId : Option String) (ua tid note : String),
      ∀ t ∈ (createPayment env now settings db amount payType orderId userId ua tid note).2,
        completedAtInv t)
    ∧ (∀ (tidO : Option String) (r : String) (sig : Option String),
        (r = "success" ∨ r = "failed") →
        ∀ t ∈ (verifyPayment env now db tidO (some r) sig).2, completedAtInv t)
    ∧ (∀ (tidO : Option String) (r : String) (amt : Option ℚ) (upiRef sig : Option String),
        (r = "success" ∨ r = "failed") →
        ∀ t ∈ (paymentWebhook env now db tidO (some r) amt upiRef sig).2, completedAtInv t)
    ∧ (∀ (tidO : Option String) (r : String) (sig : Option String),
        (r = "success" ∨ r = "failed") →
        ∀ t ∈ (simulatePayment now db tidO (some r) sig).2, completedAtInv t)
    ∧ (∀ (tid : String) (tx : Transaction),
        findOne db tid = some tx → tx.status = "pending" → tx.completedAt = none →
        now > tx.expires → validTransaction tx = true →
        findOne (checkPaymentStatus now db (some tid)).2 tid
          = some { tx with status := "expired" }
        ∧ ¬ completedAtInv { tx with status := "expired" }) := by
  refine ⟨?_, ?_, ?_, ?_, ?_⟩
  · intro amount payType orderId userId ua tid note
    simp only [createPayment]
    split
    · exact hdb
    · split
      · exact hdb
      · split <;> exact inv_persistNew hdb (by simp [completedAtInv]) _
  · intro tidO r sig hr
    have h2 : ∀ tx : Transaction,
        completedAtInv ({ tx with status := r, completedAt := some now } : Transaction) := by
      intro tx
      rcases hr with h | h <;> subst h <;> simp [completedAtInv]
    simp only [verifyPayment, Option.getD_some]
    split
    · exact hdb
    · split
      · exact hdb
      · next tx _ =>
          rcases verifyDecide_cases env now tx r sig with ⟨r0, hd⟩ | hd <;> rw [hd]
          · exact hdb
          · exact inv_verifyCommit hdb (h2 tx)
  · intro tidO r amt upiRef sig hr
    simp only [paymentWebhook, Option.getD_some]
    split
    · exact hdb
    · split
      · exact hdb
      · split
        · exact hdb
        · split <;>
            first
            | exact hdb
            | exact inv_webhookCommit hdb
                (by rcases hr with h | h <;> subst h <;> simp [completedAtInv])
  · intro tidO r sig hr
    simp only [simulatePayment, Option.getD_some]
    split
    · exact hdb
    · split
      · exact hdb
      · split
        · exact hdb
        · exact inv_simCommit hdb
            (by rcases hr with h | h <;> subst h <;> simp [completedAtInv]) _ _ _
  · intro tid tx hfind hst hcomp hexp hvalid
    have htid : tid ≠ "" := by
      intro h
      subst h
      have h1 : tx.tid = "" := findOne_tid hfind
      simp only [validTransaction, h1] at hvalid
      simp at hvalid
    have htidb : (tid != "") = true := bne_iff_ne.mpr htid
    have hv2 : validTransaction { tx with status := "expired" } = true := by
      simp only [validTransaction] at hvalid ⊢
      simp only [Bool.and_eq_true] at hvalid ⊢
      exact ⟨⟨⟨⟨hvalid.1.1.1.1, hvalid.1.1.1.2⟩, hvalid.1.1.2⟩, hvalid.1.2⟩, by decide⟩
    have hgt : decide (now > tx.expires) = true := decide_eq_true hexp
    constructor
    · simp only [checkPaymentStatus, jsTruthy, htidb, Bool.not_true,
        Bool.false_eq_true, if_false, Option.getD_some, hfind, hst,
        beq_self_eq_true, hgt, Bool.and_self, if_true, saveDoc, hv2]
      exact findOne_replace _ hfind rfl
    · intro h
      have h2 : ({ tx with status := "expired" } : Transaction).completedAt ≠ none := by
        apply h.mpr
        simp
      exact h2 hcomp

/-- Witness for the amended C1 at a concrete one-transaction store. -/
theorem c1_amended_completedAt_invariant_witness :
    (∀ t ∈ [c1tx], completedAtInv t) ∧
    ((∀ (amount : Option ℚ) (payType orderId userId : Option String) (ua tid note : String),
      ∀ t ∈ (createPayment none 2000 { merchantUPI := "m@sbi", merchantSecret := "k" }
          [c1tx] amount payType orderId userId ua tid note).2, completedAtInv t)
    ∧ (∀ (tidO : Option String) (r : String) (sig : Option String),
        (r = "success" ∨ r = "failed") →
        ∀ t ∈ (verifyPayment none 2000 [c1tx] tidO (some r) sig).2, completedAtInv t)
    ∧ (∀ (tidO : Option String) (r : String) (amt : Option ℚ) (upiRef sig : Option String),
        (r = "success" ∨ r = "failed") →
        ∀ t ∈ (paymentWebhook none 2000 [c1tx] tidO (some r) amt upiRef sig).2, completedAtInv t)
    ∧ (∀ (tidO : Option String) (r : String) (sig : Option String),
        (r = "success" ∨ r = "failed") →
        ∀ t ∈ (simulatePayment 2000 [c1tx] tidO (some r) sig).2, completedAtInv t)
    ∧ (∀ (tid : String) (tx : Transaction),
        findOne [c1tx] tid = some tx → tx.status = "pending" → tx.completedAt = none →
        2000 > tx.expires → validTransaction tx = true →
        findOne (checkPaymentStatus 2000 [c1tx] (some tid)).2 tid
          = some { tx with status := "expired" }
        ∧ ¬ completedAtInv { tx with status := "expired" })) :=
  ⟨by decide,
   c1_amended_completedAt_invariant none 2000 { merchantUPI := "m@sbi", merchantSecret := "k" }
     [c1tx] (by decide)⟩
